import Mathlib

/-
Verification of the ReduxSocketMiddleware repository (src/src/index.tsx).

The middleware intercepts dispatched values, recognizes three channel-control
intents (SUBSCRIBE, UNSUBSCRIBE, EMIT) and bridges them to a socket.io channel.
We embed it as a function from a dispatched value to a trace of observable
effects (provenance dispatches, channel operations, pass-through to the next
stage) together with a result: the value returned, or the error thrown.
-/

namespace ReduxSocket

/-- A callback reference.  JavaScript functions are compared by reference; we
model a user-supplied function by an identity tag together with its observable
name (the JS name attribute read by the middleware), and the anonymous closure
returned by defaultHandle for a given event by that event (such a closure has
the empty JS name). -/
inductive Handler where
  | user (id : Nat) (name : String)
  | defaultH (event : String)
deriving DecidableEq, Repr

/-- The name attribute of a function: a user function carries its declared
name; the arrow closure produced by defaultHandle (index.tsx line 86) is
anonymous. -/
def Handler.jsName : Handler → String
  | .user _ n => n
  | .defaultH _ => ""

/-- A JavaScript runtime value as far as the middleware observes it: the
handle and data fields of an action, and the records passed to dispatch. -/
inductive JSValue where
  | undef
  | num (n : Int)
  | boolVal (b : Bool)
  | str (s : String)
  | fn (h : Handler)
  | obj (fields : List (String × JSValue))

/-- typeof v (is a) function (index.tsx lines 57, 62, 71). -/
def JSValue.isFn : JSValue → Bool
  | .fn _ => true
  | _ => false

/-- The SocketAction shape of index.tsx lines 23-27: destructured at line 47
into type, event, handle, data.  A field absent on the JS object destructures
to undefined, which we model as JSValue.undef. -/
structure SocketAction where
  type : String
  event : String
  handle : JSValue
  data : JSValue

/-- The value given to the middleware: either a function (a thunk) or a plain
action object (index.tsx line 42). -/
inductive ActionInput where
  | fn (h : Handler)
  | act (a : SocketAction)

/-- The frozen ACTIONS table, index.tsx lines 30-36. -/
def ACTIONS.SUBSCRIBE : String := "SOCKET_IO_SUBSCRIBE"

def ACTIONS.UNSUBSCRIBE : String := "SOCKET_IO_UNSUBSCRIBE"

def ACTIONS.EMIT : String := "SOCKET_IO_EMIT"

def ACTIONS.EMIT_EVENT : String := "SOCKET_IO_EMIT_EVENT"

def ACTIONS.EVENT_RECEIVED : String := "SOCKET_IO_EVENT_RECEIVED"

/-- One observable side effect of a middleware call, in program order:
a call to dispatch, to socket.on, to socket.removeListener, to socket.emit,
or to the next continuation of the pipeline. -/
inductive Effect where
  | dispatch (v : JSValue)
  | socketOn (event : String) (h : Handler)
  | socketRemoveListener (event : String) (h : Handler)
  | socketEmit (event : String) (data : JSValue)
  | next (a : ActionInput)

/-- The environment: what the external collaborators return.  nextResult is
the return value of the next continuation, emitResult the return value of
socket.emit (socket.io returns the socket itself; the middleware merely
forwards it, so it stays abstract here). -/
structure Env where
  nextResult : ActionInput → JSValue
  emitResult : String → JSValue → JSValue

/-- defaultHandle event (index.tsx lines 85-87): returns the anonymous
closure over event and dispatch. -/
def defaultHandle (event : String) : Handler := Handler.defaultH event

/-- Invoking the closure returned by defaultHandle event with inbound data
performs the single call dispatch of the record with fields type (the string
RECEIVE: followed by the event) and data (index.tsx line 86). -/
def defaultHandleBody (event : String) (data : JSValue) : List Effect :=
  [Effect.dispatch (JSValue.obj
    [("type", JSValue.str ("RECEIVE: " ++ event)), ("data", data)])]

/-- The provenance record dispatched on SUBSCRIBE, index.tsx lines 55-57:
the handle field is the tag made of the word function and the name when the
handle is callable, and the raw handle value otherwise. -/
def subscribeProv (event : String) (handle : JSValue) : JSValue :=
  JSValue.obj
    [("type", JSValue.str ("SUBSCRIBE: " ++ event)),
     ("event", JSValue.str event),
     ("handle", match handle with
       | JSValue.fn h => JSValue.str ("function: " ++ Handler.jsName h)
       | v => v)]

/-- The provenance record dispatched on UNSUBSCRIBE, index.tsx line 69.
Note there is no colon after the word UNSUBSCRIBE in the type string. -/
def unsubscribeProv (event : String) : JSValue :=
  JSValue.obj
    [("type", JSValue.str ("UNSUBSCRIBE " ++ event)),
     ("event", JSValue.str event)]

/-- The provenance record dispatched on EMIT, index.tsx line 78. -/
def emitProv (event : String) (data : JSValue) : JSValue :=
  JSValue.obj
    [("type", JSValue.str ("EMIT: " ++ event)),
     ("action", JSValue.str "SOCKET.IO EMIT"),
     ("data", data)]

/-- index.tsx line 62: the effective event handler is the supplied handle
when it is callable, and otherwise the closure defaultHandle event. -/
def resolveHandler (handle : JSValue) (event : String) : Handler :=
  match handle with
  | JSValue.fn h => h
  | _ => defaultHandle event

/-- The error message thrown at index.tsx line 72. -/
def unsubscribeErrorMsg (event : String) : String :=
  "Unable to unsubscribe to " ++ event ++ ", without a function reference."

/-- The middleware body, index.tsx lines 42-88, as a trace semantics: given
the environment and the dispatched value, the list of effects performed in
order, paired with the result (Except.ok the returned value, or Except.error
the message of the thrown Error; effects performed before a throw are kept
in the list).  A function is passed to next (line 44); otherwise the switch
on type runs the SUBSCRIBE (50-66), UNSUBSCRIBE (68-75) or EMIT (77-79)
branch, and the default branch (81-82) passes the action to next. -/
def socketMiddleware (env : Env) (action : ActionInput) :
    List Effect × Except String JSValue :=
  match action with
  | ActionInput.fn _ => ([Effect.next action], Except.ok (env.nextResult action))
  | ActionInput.act a =>
    if a.type = ACTIONS.SUBSCRIBE then
      ([Effect.dispatch (subscribeProv a.event a.handle),
        Effect.socketOn a.event (resolveHandler a.handle a.event)],
       Except.ok (JSValue.fn (resolveHandler a.handle a.event)))
    else if a.type = ACTIONS.UNSUBSCRIBE then
      match a.handle with
      | JSValue.fn h =>
        ([Effect.dispatch (unsubscribeProv a.event),
          Effect.socketRemoveListener a.event h],
         Except.ok JSValue.undef)
      | _ =>
        ([Effect.dispatch (unsubscribeProv a.event)],
         Except.error (unsubscribeErrorMsg a.event))
    else if a.type = ACTIONS.EMIT then
      ([Effect.dispatch (emitProv a.event a.data),
        Effect.socketEmit a.event a.data],
       Except.ok (env.emitResult a.event a.data))
    else
      ([Effect.next action], Except.ok (env.nextResult action))

/-- The actionCreator table, index.tsx lines 92-108.  emit builds the record
with fields type, event, data; a field not written on the JS literal reads
as undefined, modelled by JSValue.undef. -/
def actionCreator.emit (event : String) (data : JSValue) : SocketAction :=
  ⟨ACTIONS.EMIT, event, JSValue.undef, data⟩

/-- index.tsx lines 98-102: subscribe builds the record with fields type,
event, handle. -/
def actionCreator.subscribe (event : String) (handle : JSValue) : SocketAction :=
  ⟨ACTIONS.SUBSCRIBE, event, handle, JSValue.undef⟩

/-- index.tsx lines 103-107: unsubscribe builds the record with fields type,
event, handle. -/
def actionCreator.unsubscribe (event : String) (handle : JSValue) : SocketAction :=
  ⟨ACTIONS.UNSUBSCRIBE, event, handle, JSValue.undef⟩

/-- The listener set of the external channel collaborator, in registration
order.  The channel is out of scope of the repository; its contract is fixed
by the spec: addListener registers a callback for an event, removeListener
removes a previously registered callback by reference equality (first
matching occurrence, as the socket.io event emitter does). -/
abbrev Channel := List (String × Handler)

/-- socket.on: appends the registration. -/
def Channel.addListener (c : Channel) (event : String) (h : Handler) : Channel :=
  c ++ [(event, h)]

/-- socket.removeListener: removes the first registration equal to the given
event and callback reference. -/
def Channel.removeListener : Channel → String → Handler → Channel
  | [], _, _ => []
  | p :: rest, event, h =>
    if p = (event, h) then rest
    else p :: Channel.removeListener rest event h

/-- The callbacks the channel invokes when it delivers an inbound event. -/
def Channel.listeners (c : Channel) (event : String) : List Handler :=
  (c.filter (fun p => p.1 = event)).map (fun p => p.2)

/-- The channel mutation an effect performs: only socket.on and
socket.removeListener touch the listener set. -/
def applyEffect (c : Channel) : Effect → Channel
  | Effect.socketOn event h => c.addListener event h
  | Effect.socketRemoveListener event h => c.removeListener event h
  | _ => c

/-- The channel mutation of a whole effect trace, in order. -/
def applyEffects (c : Channel) (es : List Effect) : Channel :=
  es.foldl applyEffect c

/-- The action type strings the switch at index.tsx line 49 recognizes. -/
def recognizedType (t : String) : Bool :=
  (t == ACTIONS.SUBSCRIBE) || (t == ACTIONS.UNSUBSCRIBE) || (t == ACTIONS.EMIT)

/-- Whether an effect is a call to the next continuation. -/
def Effect.isNext : Effect → Bool
  | .next _ => true
  | _ => false

/-- A fixed environment used to instantiate theorems at concrete inputs. -/
def envW : Env := ⟨fun _ => JSValue.undef, fun _ _ => JSValue.undef⟩

/-- Claim C1: for every event string and payload value, processing an EMIT
intent performs exactly one provenance dispatch followed by exactly one
send of that event and payload on the channel, in that order and nothing
else, and returns exactly the value the channel send call returns. -/
theorem emit_dispatches_then_sends (env : Env) (event : String)
    (handle data : JSValue) :
    socketMiddleware env (ActionInput.act ⟨ACTIONS.EMIT, event, handle, data⟩) =
      ([Effect.dispatch (emitProv event data), Effect.socketEmit event data],
       Except.ok (env.emitResult event data)) := by
  simp [socketMiddleware, ACTIONS.EMIT, ACTIONS.SUBSCRIBE, ACTIONS.UNSUBSCRIBE]

/-- Claim C8: the three vocabulary constructors are pure total functions
returning exactly the documented records: emit gives the EMIT kind with the
payload in the data field (and no handle), subscribe gives the SUBSCRIBE
kind with the handler in the handle field, unsubscribe gives the UNSUBSCRIBE
kind with the handler in the handle field. -/
theorem actionCreator_shapes (event : String) (payload handle : JSValue) :
    actionCreator.emit event payload =
        ⟨ACTIONS.EMIT, event, JSValue.undef, payload⟩
    ∧ actionCreator.subscribe event handle =
        ⟨ACTIONS.SUBSCRIBE, event, handle, JSValue.undef⟩
    ∧ actionCreator.unsubscribe event handle =
        ⟨ACTIONS.UNSUBSCRIBE, event, handle, JSValue.undef⟩ :=
  ⟨rfl, rfl, rfl⟩

/-- Claim C4: subscribing with no explicit handler registers the default
handler for the event as the one listener, and invoking that default handler
with any data value performs exactly one dispatch, of the record with type
the string RECEIVE: followed by the event, and that data. -/
theorem subscribe_default_roundtrip (env : Env) (event : String)
    (d data : JSValue) :
    (socketMiddleware env
        (ActionInput.act ⟨ACTIONS.SUBSCRIBE, event, JSValue.undef, d⟩)).1 =
      [Effect.dispatch (subscribeProv event JSValue.undef),
       Effect.socketOn event (defaultHandle event)]
    ∧ defaultHandleBody event data =
      [Effect.dispatch (JSValue.obj
        [("type", JSValue.str ("RECEIVE: " ++ event)), ("data", data)])] := by
  constructor
  · simp [socketMiddleware, ACTIONS.SUBSCRIBE, resolveHandler]
  · rfl

/-- Claim C2: processing a SUBSCRIBE intent registers exactly one listener on
the channel for that event and returns a callable reference; both the
registered listener and the returned reference are the supplied handler
verbatim when a callable handler was supplied, and the synthesized default
handler otherwise. -/
theorem subscribe_registers_one_listener (env : Env) (event : String)
    (handle d : JSValue) :
    socketMiddleware env (ActionInput.act ⟨ACTIONS.SUBSCRIBE, event, handle, d⟩) =
      ([Effect.dispatch (subscribeProv event handle),
        Effect.socketOn event (resolveHandler handle event)],
       Except.ok (JSValue.fn (resolveHandler handle event)))
    ∧ (∀ h : Handler, handle = JSValue.fn h → resolveHandler handle event = h)
    ∧ (handle.isFn = false → resolveHandler handle event = defaultHandle event) := by
  refine ⟨by simp [socketMiddleware, ACTIONS.SUBSCRIBE], ?_, ?_⟩
  · rintro h rfl
    rfl
  · intro hf
    cases handle <;> first | rfl | simp [JSValue.isFn] at hf

/-- Witness for C2 at the event chat:message, once with no handler supplied
and once with a named user handler. -/
theorem subscribe_registers_one_listener_witness :
    socketMiddleware envW
        (ActionInput.act ⟨ACTIONS.SUBSCRIBE, "chat:message", JSValue.undef, JSValue.undef⟩) =
      ([Effect.dispatch (subscribeProv "chat:message" JSValue.undef),
        Effect.socketOn "chat:message" (resolveHandler JSValue.undef "chat:message")],
       Except.ok (JSValue.fn (resolveHandler JSValue.undef "chat:message")))
    ∧ resolveHandler JSValue.undef "chat:message" = defaultHandle "chat:message"
    ∧ resolveHandler (JSValue.fn (Handler.user 0 "onMessage")) "chat:message" =
        Handler.user 0 "onMessage" :=
  ⟨(subscribe_registers_one_listener envW "chat:message" JSValue.undef JSValue.undef).1,
   (subscribe_registers_one_listener envW "chat:message" JSValue.undef JSValue.undef).2.2 rfl,
   (subscribe_registers_one_listener envW "chat:message"
      (JSValue.fn (Handler.user 0 "onMessage")) JSValue.undef).2.1
      (Handler.user 0 "onMessage") rfl⟩

/-- Claim C3: processing an UNSUBSCRIBE intent whose handle is not callable
throws synchronously (after the provenance dispatch, which is its only
effect), issues no listener removal call, and leaves any channel listener
set unchanged. -/
theorem unsubscribe_noncallable_throws (env : Env) (event : String)
    (handle d : JSValue) (hnc : handle.isFn = false) :
    socketMiddleware env (ActionInput.act ⟨ACTIONS.UNSUBSCRIBE, event, handle, d⟩) =
      ([Effect.dispatch (unsubscribeProv event)],
       Except.error (unsubscribeErrorMsg event))
    ∧ ∀ c : Channel,
        applyEffects c (socketMiddleware env
          (ActionInput.act ⟨ACTIONS.UNSUBSCRIBE, event, handle, d⟩)).1 = c := by
  have hmain : socketMiddleware env
      (ActionInput.act ⟨ACTIONS.UNSUBSCRIBE, event, handle, d⟩) =
      ([Effect.dispatch (unsubscribeProv event)],
       Except.error (unsubscribeErrorMsg event)) := by
    cases handle <;>
      simp_all [socketMiddleware, ACTIONS.SUBSCRIBE, ACTIONS.UNSUBSCRIBE, JSValue.isFn]
  refine ⟨hmain, fun c => ?_⟩
  rw [hmain]
  simp [applyEffects, applyEffect]

/-- Witness for C3: unsubscribing from chat:message with the number 42. -/
theorem unsubscribe_noncallable_throws_witness :
    socketMiddleware envW
        (ActionInput.act ⟨ACTIONS.UNSUBSCRIBE, "chat:message", JSValue.num 42, JSValue.undef⟩) =
      ([Effect.dispatch (unsubscribeProv "chat:message")],
       Except.error (unsubscribeErrorMsg "chat:message"))
    ∧ applyEffects [("chat:message", Handler.user 0 "onMessage")]
        (socketMiddleware envW
          (ActionInput.act ⟨ACTIONS.UNSUBSCRIBE, "chat:message", JSValue.num 42, JSValue.undef⟩)).1 =
      [("chat:message", Handler.user 0 "onMessage")] :=
  ⟨(unsubscribe_noncallable_throws envW "chat:message" (JSValue.num 42) JSValue.undef rfl).1,
   (unsubscribe_noncallable_throws envW "chat:message" (JSValue.num 42) JSValue.undef rfl).2
     [("chat:message", Handler.user 0 "onMessage")]⟩

/-- Claim C9: processing a SUBSCRIBE intent never throws for any handle
value, and when the handle is non-callable the middleware silently registers
and returns the default handler while the provenance record carries the raw
non-callable value in its handle field. -/
theorem subscribe_never_throws (env : Env) (event : String)
    (handle d : JSValue) (hnc : handle.isFn = false) :
    (∀ h2 d2 : JSValue, ∃ v, (socketMiddleware env
        (ActionInput.act ⟨ACTIONS.SUBSCRIBE, event, h2, d2⟩)).2 = Except.ok v)
    ∧ socketMiddleware env (ActionInput.act ⟨ACTIONS.SUBSCRIBE, event, handle, d⟩) =
        ([Effect.dispatch (subscribeProv event handle),
          Effect.socketOn event (defaultHandle event)],
         Except.ok (JSValue.fn (defaultHandle event)))
    ∧ subscribeProv event handle =
        JSValue.obj [("type", JSValue.str ("SUBSCRIBE: " ++ event)),
                     ("event", JSValue.str event),
                     ("handle", handle)] := by
  refine ⟨fun h2 d2 => ⟨JSValue.fn (resolveHandler h2 event), ?_⟩, ?_, ?_⟩
  · simp [socketMiddleware, ACTIONS.SUBSCRIBE]
  · cases handle <;>
      simp_all [socketMiddleware, ACTIONS.SUBSCRIBE, resolveHandler, JSValue.isFn,
        defaultHandle]
  · cases handle <;> first | rfl | simp [JSValue.isFn] at hnc

/-- Witness for C9: subscribing to chat:message with the number 7 as handle. -/
theorem subscribe_never_throws_witness :
    (∃ v, (socketMiddleware envW
        (ActionInput.act ⟨ACTIONS.SUBSCRIBE, "chat:message", JSValue.num 7, JSValue.undef⟩)).2 =
      Except.ok v)
    ∧ socketMiddleware envW
        (ActionInput.act ⟨ACTIONS.SUBSCRIBE, "chat:message", JSValue.num 7, JSValue.undef⟩) =
        ([Effect.dispatch (subscribeProv "chat:message" (JSValue.num 7)),
          Effect.socketOn "chat:message" (defaultHandle "chat:message")],
         Except.ok (JSValue.fn (defaultHandle "chat:message")))
    ∧ subscribeProv "chat:message" (JSValue.num 7) =
        JSValue.obj [("type", JSValue.str ("SUBSCRIBE: " ++ "chat:message")),
                     ("event", JSValue.str "chat:message"),
                     ("handle", JSValue.num 7)] :=
  ⟨(subscribe_never_throws envW "chat:message" (JSValue.num 7) JSValue.undef rfl).1
      (JSValue.num 7) JSValue.undef,
   (subscribe_never_throws envW "chat:message" (JSValue.num 7) JSValue.undef rfl).2.1,
   (subscribe_never_throws envW "chat:message" (JSValue.num 7) JSValue.undef rfl).2.2⟩

/-- Claim C5: a dispatched value that is callable, or whose type is not one
of the three recognized intent kinds, is forwarded to next unchanged and the
return value of next is returned unchanged; the whole effect trace is that
single next call, so no channel operation and no provenance dispatch is
performed. -/
theorem passthrough_unrecognized (env : Env) (a : ActionInput)
    (h : (∃ f, a = ActionInput.fn f) ∨
         (∃ sa, a = ActionInput.act sa ∧ recognizedType sa.type = false)) :
    socketMiddleware env a = ([Effect.next a], Except.ok (env.nextResult a)) := by
  rcases h with ⟨f, rfl⟩ | ⟨sa, rfl, hs⟩
  · rfl
  · simp only [recognizedType, Bool.or_eq_false_iff, beq_eq_false_iff_ne] at hs
    simp [socketMiddleware, hs.1.1, hs.1.2, hs.2]

/-- Witness for C5: a thunk, and an ordinary action of type INCREMENT. -/
theorem passthrough_unrecognized_witness :
    socketMiddleware envW (ActionInput.fn (Handler.user 3 "thunk")) =
      ([Effect.next (ActionInput.fn (Handler.user 3 "thunk"))],
       Except.ok (envW.nextResult (ActionInput.fn (Handler.user 3 "thunk"))))
    ∧ socketMiddleware envW
        (ActionInput.act ⟨"INCREMENT", "", JSValue.undef, JSValue.undef⟩) =
      ([Effect.next (ActionInput.act ⟨"INCREMENT", "", JSValue.undef, JSValue.undef⟩)],
       Except.ok (envW.nextResult
         (ActionInput.act ⟨"INCREMENT", "", JSValue.undef, JSValue.undef⟩))) :=
  ⟨passthrough_unrecognized envW (ActionInput.fn (Handler.user 3 "thunk"))
      (Or.inl ⟨Handler.user 3 "thunk", rfl⟩),
   passthrough_unrecognized envW
      (ActionInput.act ⟨"INCREMENT", "", JSValue.undef, JSValue.undef⟩)
      (Or.inr ⟨⟨"INCREMENT", "", JSValue.undef, JSValue.undef⟩, rfl, by decide⟩)⟩

/-- Claim C7: the first effect of SUBSCRIBE processing is a dispatch of the
record with type the string SUBSCRIBE: followed by the event, the event, and
a handle that is the readable tag (the word function, a colon and the JS
name) for a callable handler and the raw value otherwise; the first effect
of UNSUBSCRIBE processing, callable handle or not, is a dispatch of the
record with type the string UNSUBSCRIBE followed by the event with no colon,
and the event. -/
theorem provenance_record_shapes (env : Env) (event : String) (h : Handler)
    (v d : JSValue) (hv : v.isFn = false) :
    (socketMiddleware env
        (ActionInput.act ⟨ACTIONS.SUBSCRIBE, event, JSValue.fn h, d⟩)).1.head? =
      some (Effect.dispatch (JSValue.obj
        [("type", JSValue.str ("SUBSCRIBE: " ++ event)),
         ("event", JSValue.str event),
         ("handle", JSValue.str ("function: " ++ Handler.jsName h))]))
    ∧ (socketMiddleware env
        (ActionInput.act ⟨ACTIONS.SUBSCRIBE, event, v, d⟩)).1.head? =
      some (Effect.dispatch (JSValue.obj
        [("type", JSValue.str ("SUBSCRIBE: " ++ event)),
         ("event", JSValue.str event),
         ("handle", v)]))
    ∧ (socketMiddleware env
        (ActionInput.act ⟨ACTIONS.UNSUBSCRIBE, event, v, d⟩)).1.head? =
      some (Effect.dispatch (JSValue.obj
        [("type", JSValue.str ("UNSUBSCRIBE " ++ event)),
         ("event", JSValue.str event)]))
    ∧ (socketMiddleware env
        (ActionInput.act ⟨ACTIONS.UNSUBSCRIBE, event, JSValue.fn h, d⟩)).1.head? =
      some (Effect.dispatch (JSValue.obj
        [("type", JSValue.str ("UNSUBSCRIBE " ++ event)),
         ("event", JSValue.str event)])) := by
  refine ⟨?_, ?_, ?_, ?_⟩
  · simp [socketMiddleware, ACTIONS.SUBSCRIBE, subscribeProv]
  · cases v <;>
      simp_all [socketMiddleware, ACTIONS.SUBSCRIBE, subscribeProv, JSValue.isFn]
  · cases v <;>
      simp_all [socketMiddleware, ACTIONS.SUBSCRIBE, ACTIONS.UNSUBSCRIBE,
        unsubscribeProv, JSValue.isFn]
  · simp [socketMiddleware, ACTIONS.SUBSCRIBE, ACTIONS.UNSUBSCRIBE, unsubscribeProv]

/-- Witness for C7 at the event chat:message, a named user handler and the
undefined handle value. -/
theorem provenance_record_shapes_witness :
    (socketMiddleware envW
        (ActionInput.act ⟨ACTIONS.SUBSCRIBE, "chat:message",
          JSValue.fn (Handler.user 0 "onMessage"), JSValue.undef⟩)).1.head? =
      some (Effect.dispatch (JSValue.obj
        [("type", JSValue.str ("SUBSCRIBE: " ++ "chat:message")),
         ("event", JSValue.str "chat:message"),
         ("handle", JSValue.str ("function: " ++ Handler.jsName (Handler.user 0 "onMessage")))]))
    ∧ (socketMiddleware envW
        (ActionInput.act ⟨ACTIONS.UNSUBSCRIBE, "chat:message", JSValue.undef, JSValue.undef⟩)).1.head? =
      some (Effect.dispatch (JSValue.obj
        [("type", JSValue.str ("UNSUBSCRIBE " ++ "chat:message")),
         ("event", JSValue.str "chat:message")])) :=
  ⟨(provenance_record_shapes envW "chat:message" (Handler.user 0 "onMessage")
      JSValue.undef JSValue.undef rfl).1,
   (provenance_record_shapes envW "chat:message" (Handler.user 0 "onMessage")
      JSValue.undef JSValue.undef rfl).2.2.1⟩

/-- Claim C10: an action whose type is one of the three recognized intent
kinds is consumed by the middleware: its effect trace contains no call to
the next continuation, whatever the event, handle and data. -/
theorem recognized_never_forwarded (env : Env) (t event : String)
    (handle data : JSValue) (ht : recognizedType t = true) :
    (socketMiddleware env (ActionInput.act ⟨t, event, handle, data⟩)).1.countP
      Effect.isNext = 0 := by
  simp only [recognizedType, Bool.or_eq_true, beq_iff_eq] at ht
  rcases ht with (rfl | rfl) | rfl
  · simp [socketMiddleware, List.countP_cons, Effect.isNext]
  · cases handle <;>
      simp [socketMiddleware, ACTIONS.SUBSCRIBE, ACTIONS.UNSUBSCRIBE,
        List.countP_cons, Effect.isNext]
  · simp [socketMiddleware, ACTIONS.SUBSCRIBE, ACTIONS.UNSUBSCRIBE, ACTIONS.EMIT,
      List.countP_cons, Effect.isNext]

/-- Witness for C10: an EMIT intent is consumed. -/
theorem recognized_never_forwarded_witness :
    (socketMiddleware envW (ActionInput.act ⟨ACTIONS.EMIT, "chat:message",
      JSValue.undef, JSValue.str "hi"⟩)).1.countP Effect.isNext = 0 :=
  recognized_never_forwarded envW ACTIONS.EMIT "chat:message" JSValue.undef
    (JSValue.str "hi") (by decide)

/-- Removing a registration just appended to a channel that did not already
hold it restores the channel exactly. -/
theorem removeListener_append_self (c : Channel) (event : String) (h : Handler)
    (hc : (event, h) ∉ c) :
    Channel.removeListener (c ++ [(event, h)]) event h = c := by
  induction c with
  | nil => simp [Channel.removeListener]
  | cons p rest ih =>
    simp only [List.mem_cons, not_or] at hc
    rw [List.cons_append, Channel.removeListener, if_neg (fun he => hc.1 he.symm)]
    rw [ih hc.2]

/-- A callback not registered for an event is not among the callbacks the
channel delivers that event to. -/
theorem not_mem_listeners (c : Channel) (event : String) (h : Handler)
    (hc : (event, h) ∉ c) : h ∉ Channel.listeners c event := by
  intro hmem
  simp only [Channel.listeners, List.mem_map, List.mem_filter,
    decide_eq_true_eq] at hmem
  obtain ⟨⟨pa, pb⟩, ⟨hpin, hp1⟩, hp2⟩ := hmem
  simp only at hp1 hp2
  subst hp1
  subst hp2
  exact hc hpin

/-- Claim C6: processing an UNSUBSCRIBE intent with a callable handler
performs the provenance dispatch and exactly one removal of that callback
for that event, yields the undefined result without passing the intent to
the next stage, and after a subscribe followed by that unsubscribe on any
channel not already holding the registration the listener set is restored,
so a subsequent delivery for the event does not reach the removed
callback. -/
theorem unsubscribe_removes_exact_listener (env : Env) (event : String)
    (h : Handler) (d1 d2 : JSValue) (c : Channel) (hc : (event, h) ∉ c) :
    socketMiddleware env
        (ActionInput.act ⟨ACTIONS.UNSUBSCRIBE, event, JSValue.fn h, d2⟩) =
      ([Effect.dispatch (unsubscribeProv event),
        Effect.socketRemoveListener event h],
       Except.ok JSValue.undef)
    ∧ applyEffects
        (applyEffects c (socketMiddleware env
          (ActionInput.act ⟨ACTIONS.SUBSCRIBE, event, JSValue.fn h, d1⟩)).1)
        (socketMiddleware env
          (ActionInput.act ⟨ACTIONS.UNSUBSCRIBE, event, JSValue.fn h, d2⟩)).1 = c
    ∧ h ∉ Channel.listeners
        (applyEffects
          (applyEffects c (socketMiddleware env
            (ActionInput.act ⟨ACTIONS.SUBSCRIBE, event, JSValue.fn h, d1⟩)).1)
          (socketMiddleware env
            (ActionInput.act ⟨ACTIONS.UNSUBSCRIBE, event, JSValue.fn h, d2⟩)).1)
        event := by
  have hu : socketMiddleware env
      (ActionInput.act ⟨ACTIONS.UNSUBSCRIBE, event, JSValue.fn h, d2⟩) =
      ([Effect.dispatch (unsubscribeProv event),
        Effect.socketRemoveListener event h],
       Except.ok JSValue.undef) := by
    simp [socketMiddleware, ACTIONS.SUBSCRIBE, ACTIONS.UNSUBSCRIBE]
  have hs : (socketMiddleware env
      (ActionInput.act ⟨ACTIONS.SUBSCRIBE, event, JSValue.fn h, d1⟩)).1 =
      [Effect.dispatch (subscribeProv event (JSValue.fn h)),
       Effect.socketOn event h] := by
    simp [socketMiddleware, ACTIONS.SUBSCRIBE, resolveHandler]
  have hrt : applyEffects
      (applyEffects c (socketMiddleware env
        (ActionInput.act ⟨ACTIONS.SUBSCRIBE, event, JSValue.fn h, d1⟩)).1)
      (socketMiddleware env
        (ActionInput.act ⟨ACTIONS.UNSUBSCRIBE, event, JSValue.fn h, d2⟩)).1 = c := by
    rw [hs, hu]
    simp only [applyEffects, List.foldl, applyEffect, Channel.addListener]
    exact removeListener_append_self c event h hc
  refine ⟨hu, hrt, ?_⟩
  rw [hrt]
  exact not_mem_listeners c event h hc

/-- Witness for C6: subscribe then unsubscribe the handler onMessage for
chat:message starting from the empty channel. -/
theorem unsubscribe_removes_exact_listener_witness :
    socketMiddleware envW
        (ActionInput.act ⟨ACTIONS.UNSUBSCRIBE, "chat:message",
          JSValue.fn (Handler.user 0 "onMessage"), JSValue.undef⟩) =
      ([Effect.dispatch (unsubscribeProv "chat:message"),
        Effect.socketRemoveListener "chat:message" (Handler.user 0 "onMessage")],
       Except.ok JSValue.undef)
    ∧ applyEffects
        (applyEffects [] (socketMiddleware envW
          (ActionInput.act ⟨ACTIONS.SUBSCRIBE, "chat:message",
            JSValue.fn (Handler.user 0 "onMessage"), JSValue.undef⟩)).1)
        (socketMiddleware envW
          (ActionInput.act ⟨ACTIONS.UNSUBSCRIBE, "chat:message",
            JSValue.fn (Handler.user 0 "onMessage"), JSValue.undef⟩)).1 = [] :=
  ⟨(unsubscribe_removes_exact_listener envW "chat:message"
      (Handler.user 0 "onMessage") JSValue.undef JSValue.undef []
      (List.not_mem_nil _)).1,
   (unsubscribe_removes_exact_listener envW "chat:message"
      (Handler.user 0 "onMessage") JSValue.undef JSValue.undef []
      (List.not_mem_nil _)).2.1⟩

end ReduxSocket
